import Mathlib

/-!
# Verification of the Valyria Tear input engine (`src/engine/input.h`)

This development embeds the input engine of the repository in Lean 4 and
proves (or refutes) the claims of the specification against it.

The repository provides only the header `src/engine/input.h`: the class
layout, the inline accessor bodies and the declarations of the event and
remapping routines.  Definitions below that embed inline code from the
header are marked with the header line numbers.  The bodies of
`EventHandler`, `_KeyEventHandler`, `_JoystickEventHandler`, `_SetNewKey`,
`_SetNewJoyButton`, `RestoreDefaultKeys` and `RestoreDefaultJoyButtons`
live in `input.cpp`, which is not part of the sources; those are
modelled from the specification and each carries a doc comment starting
with `Modelled from the spec:`.

Machine integers are embedded as `Nat`/`Int` with explicit reduction
modulo `2^w` exactly where the C++ code performs a narrowing or
signedness-changing conversion.
-/

namespace vt_input

/-! ## Fixed-width integer reinterpretations -/

/-- Reinterpretation of an arbitrary `Int` as a C `int8_t`
(two's complement, value in `[-128, 127]`). -/
def toInt8 (x : Int) : Int := (x + 128) % 256 - 128

/-- Reinterpretation of a stored `int8_t` value as a C `uint8_t`
(value in `[0, 255]`), as happens when `int8_t _last_axis_moved` is
returned from the `uint8_t GetLastAxisMoved()` accessor. -/
def int8ToUInt8 (x : Int) : Nat := (x % 256).toNat

/-- Conversion of an `int16_t` argument to a `uint16_t` storage location
(modular, no range check), as happens in `SetThresholdJoy`. -/
def int16ToUInt16 (x : Int) : Nat := (x % 65536).toNat

/-- Reinterpretation of a stored `uint16_t` value as an `int16_t` return
value, as happens in `GetThresholdJoy`. -/
def uint16ToInt16 (n : Nat) : Int :=
  if n < 32768 then (n : Int) else (n : Int) - 65536

/-- The extreme positive joystick axis value; the header documents the
axis range as `-32768` to `32767` (input.h line 76). -/
def maxAxisMagnitude : Nat := 32767

/-! ## SDL key codes used by the header

Numeric values of the `SDL_Keycode` constants the header names
(from `SDL2/SDL_keycode.h`). -/

def SDLK_UNKNOWN : Int := 0
def SDLK_RETURN : Int := 13
def SDLK_ESCAPE : Int := 27
def SDLK_f : Int := 102
def SDLK_q : Int := 113
def SDLK_s : Int := 115
def SDLK_F1 : Int := 1073741882
def SDLK_KP_ENTER : Int := 1073741912

/-! ## Header data model (`private_input`, input.h lines 50-110) -/

/-- `private_input::KeyState` (input.h lines 50-68): one `SDL_Keycode`
per remappable action.  `SDLK_ESCAPE` is reserved for Quit, `SDLK_F1`
for Help, `SDLK_RETURN` and `SDLK_KP_ENTER` for Confirm (header note,
line 55), so Quit and Help have no field here. -/
structure KeyState where
  up : Int
  down : Int
  left : Int
  right : Int
  confirm : Int
  cancel : Int
  menu : Int
  minimap : Int
  pause : Int

/-- `private_input::JoystickState` (input.h lines 80-110).  The SDL
joystick handle is omitted (an opaque resource pointer); button indices
are `uint8_t`, axis indices `int8_t`, the threshold `uint16_t`. -/
structure JoystickState where
  joy_index : Int
  confirm : Nat
  cancel : Nat
  menu : Nat
  minimap : Nat
  pause : Nat
  help : Nat
  quit : Nat
  x_axis : Int
  y_axis : Int
  threshold : Nat

/-- The `InputEngine` private data members (input.h lines 169-259).
Exactly the boolean flags the header declares: state flags exist for
up/down/left/right/confirm/cancel/menu only, press and release flags for
all eleven actions, and four hat (D-pad) state flags.  The cached SDL
event members are omitted (opaque SDL data). -/
structure InputEngine where
  key : KeyState
  joystick : JoystickState
  joysticks_enabled : Bool
  registered_key_press : Bool
  registered_key_release : Bool
  any_keyboard_key_press : Bool
  any_joystick_key_press : Bool
  last_axis_moved : Int
  up_state : Bool
  down_state : Bool
  left_state : Bool
  right_state : Bool
  confirm_state : Bool
  cancel_state : Bool
  menu_state : Bool
  up_press : Bool
  down_press : Bool
  left_press : Bool
  right_press : Bool
  confirm_press : Bool
  cancel_press : Bool
  menu_press : Bool
  minimap_press : Bool
  pause_press : Bool
  quit_press : Bool
  help_press : Bool
  up_release : Bool
  down_release : Bool
  left_release : Bool
  right_release : Bool
  confirm_release : Bool
  cancel_release : Bool
  menu_release : Bool
  minimap_release : Bool
  pause_release : Bool
  quit_release : Bool
  help_release : Bool
  hat_up_state : Bool
  hat_down_state : Bool
  hat_left_state : Bool
  hat_right_state : Bool

/-! ## Inline accessors from the header (exact translations) -/

/-- input.h lines 333-335: `uint8_t GetLastAxisMoved() { return _last_axis_moved; }`
with the implicit `int8_t` to `uint8_t` conversion made explicit. -/
def InputEngine.GetLastAxisMoved (e : InputEngine) : Nat :=
  int8ToUInt8 e.last_axis_moved

/-- input.h lines 337-339: `void ResetLastAxisMoved() { _last_axis_moved = -1; }`
(`-1` stored into the `int8_t` member). -/
def InputEngine.ResetLastAxisMoved (e : InputEngine) : InputEngine :=
  { e with last_axis_moved := toInt8 (-1) }

/-- input.h lines 356-358: `UpState` returns `_up_state || _hat_up_state`. -/
def InputEngine.UpState (e : InputEngine) : Bool :=
  e.up_state || e.hat_up_state

/-- input.h lines 360-362: `DownState` returns `_down_state || _hat_down_state`. -/
def InputEngine.DownState (e : InputEngine) : Bool :=
  e.down_state || e.hat_down_state

/-- input.h lines 364-366: `LeftState` returns `_left_state || _hat_left_state`. -/
def InputEngine.LeftState (e : InputEngine) : Bool :=
  e.left_state || e.hat_left_state

/-- input.h lines 368-370: `RightState` returns `_right_state || _hat_right_state`. -/
def InputEngine.RightState (e : InputEngine) : Bool :=
  e.right_state || e.hat_right_state

/-- input.h lines 372-374. -/
def InputEngine.ConfirmState (e : InputEngine) : Bool := e.confirm_state

/-- input.h lines 376-378. -/
def InputEngine.CancelState (e : InputEngine) : Bool := e.cancel_state

/-- input.h lines 380-382. -/
def InputEngine.MenuState (e : InputEngine) : Bool := e.menu_state

/-- input.h lines 389-435: press accessors. -/
def InputEngine.UpPress (e : InputEngine) : Bool := e.up_press
def InputEngine.DownPress (e : InputEngine) : Bool := e.down_press
def InputEngine.LeftPress (e : InputEngine) : Bool := e.left_press
def InputEngine.RightPress (e : InputEngine) : Bool := e.right_press
def InputEngine.ConfirmPress (e : InputEngine) : Bool := e.confirm_press
def InputEngine.CancelPress (e : InputEngine) : Bool := e.cancel_press
def InputEngine.MenuPress (e : InputEngine) : Bool := e.menu_press
def InputEngine.MinimapPress (e : InputEngine) : Bool := e.minimap_press
def InputEngine.PausePress (e : InputEngine) : Bool := e.pause_press
def InputEngine.QuitPress (e : InputEngine) : Bool := e.quit_press
def InputEngine.HelpPress (e : InputEngine) : Bool := e.help_press

/-- input.h lines 442-484: release accessors. -/
def InputEngine.UpRelease (e : InputEngine) : Bool := e.up_release
def InputEngine.DownRelease (e : InputEngine) : Bool := e.down_release
def InputEngine.LeftRelease (e : InputEngine) : Bool := e.left_release
def InputEngine.RightRelease (e : InputEngine) : Bool := e.right_release
def InputEngine.ConfirmRelease (e : InputEngine) : Bool := e.confirm_release
def InputEngine.CancelRelease (e : InputEngine) : Bool := e.cancel_release
def InputEngine.MenuRelease (e : InputEngine) : Bool := e.menu_release
def InputEngine.MinimapRelease (e : InputEngine) : Bool := e.minimap_release
def InputEngine.PauseRelease (e : InputEngine) : Bool := e.pause_release
def InputEngine.QuitRelease (e : InputEngine) : Bool := e.quit_release
def InputEngine.HelpRelease (e : InputEngine) : Bool := e.help_release

/-- input.h lines 555-557: `int16_t GetThresholdJoy() const { return _joystick.threshold; }`
with the implicit `uint16_t` to `int16_t` conversion made explicit. -/
def InputEngine.GetThresholdJoy (e : InputEngine) : Int :=
  uint16ToInt16 e.joystick.threshold

/-- input.h lines 689-691:
`void SetThresholdJoy(int16_t threshold) { _joystick.threshold = threshold; }`
with the implicit `int16_t` to `uint16_t` conversion made explicit.
No range check of any kind is performed. -/
def InputEngine.SetThresholdJoy (e : InputEngine) (t : Int) : InputEngine :=
  { e with joystick := { e.joystick with threshold := int16ToUInt16 t } }

/-- A concrete engine value used by counterexamples and witnesses.
The field values are arbitrary but definite; the constructor body is in
the absent `input.cpp`, so nothing below depends on these defaults. -/
def sampleEngine : InputEngine where
  key :=
    { up := 1073741906, down := 1073741905, left := 1073741904
      right := 1073741903, confirm := SDLK_RETURN, cancel := 100
      menu := 109, minimap := 118, pause := 32 }
  joystick :=
    { joy_index := 0, confirm := 0, cancel := 1, menu := 2, minimap := 3
      pause := 4, help := 5, quit := 6, x_axis := 0, y_axis := 1
      threshold := 8192 }
  joysticks_enabled := true
  registered_key_press := false
  registered_key_release := false
  any_keyboard_key_press := false
  any_joystick_key_press := false
  last_axis_moved := 0
  up_state := false
  down_state := false
  left_state := false
  right_state := false
  confirm_state := false
  cancel_state := false
  menu_state := false
  up_press := false
  down_press := false
  left_press := false
  right_press := false
  confirm_press := false
  cancel_press := false
  menu_press := false
  minimap_press := false
  pause_press := false
  quit_press := false
  help_press := false
  up_release := false
  down_release := false
  left_release := false
  right_release := false
  confirm_release := false
  cancel_release := false
  menu_release := false
  minimap_release := false
  pause_release := false
  quit_release := false
  help_release := false
  hat_up_state := false
  hat_down_state := false
  hat_left_state := false
  hat_right_state := false

end vt_input

namespace vt_input

/-! ## The public per-action query surface (C7) -/

/-- The eleven logical actions of the specification's data model. -/
inductive LogicalAction
  | up | down | left | right | confirm | cancel | menu | minimap | pause
  | quit | help
deriving DecidableEq

/-- The per-action `...State` (level) accessors the header actually
declares (input.h lines 356-383): one for each of up, down, left,
right, confirm, cancel and menu, and none for minimap, pause, quit or
help (the header's private members, lines 201-208, hold no state flag
for those four; the class note at lines 149-150 says pause and quit are
monitored by presses only). -/
def stateQuery : LogicalAction → Option (InputEngine → Bool)
  | .up => some InputEngine.UpState
  | .down => some InputEngine.DownState
  | .left => some InputEngine.LeftState
  | .right => some InputEngine.RightState
  | .confirm => some InputEngine.ConfirmState
  | .cancel => some InputEngine.CancelState
  | .menu => some InputEngine.MenuState
  | .minimap => none
  | .pause => none
  | .quit => none
  | .help => none

/-- The per-action `...Press` (edge) accessors the header declares
(input.h lines 389-435): one for every logical action. -/
def pressQuery : LogicalAction → Option (InputEngine → Bool)
  | .up => some InputEngine.UpPress
  | .down => some InputEngine.DownPress
  | .left => some InputEngine.LeftPress
  | .right => some InputEngine.RightPress
  | .confirm => some InputEngine.ConfirmPress
  | .cancel => some InputEngine.CancelPress
  | .menu => some InputEngine.MenuPress
  | .minimap => some InputEngine.MinimapPress
  | .pause => some InputEngine.PausePress
  | .quit => some InputEngine.QuitPress
  | .help => some InputEngine.HelpPress

/-- The per-action `...Release` (edge) accessors the header declares
(input.h lines 442-484): one for every logical action. -/
def releaseQuery : LogicalAction → Option (InputEngine → Bool)
  | .up => some InputEngine.UpRelease
  | .down => some InputEngine.DownRelease
  | .left => some InputEngine.LeftRelease
  | .right => some InputEngine.RightRelease
  | .confirm => some InputEngine.ConfirmRelease
  | .cancel => some InputEngine.CancelRelease
  | .menu => some InputEngine.MenuRelease
  | .minimap => some InputEngine.MinimapRelease
  | .pause => some InputEngine.PauseRelease
  | .quit => some InputEngine.QuitRelease
  | .help => some InputEngine.HelpRelease

/-- C7 counterexample.  The claim says every logical action exposes all
three queries, but the header declares no state (level) accessor for the
pause action (nor for minimap, quit or help): there is no
`PauseState()` member in input.h. -/
theorem state_query_missing_for_pause :
    stateQuery LogicalAction.pause = none ∧
    stateQuery LogicalAction.minimap = none ∧
    stateQuery LogicalAction.quit = none ∧
    stateQuery LogicalAction.help = none :=
  ⟨rfl, rfl, rfl, rfl⟩

/-- C7 amended.  Every logical action exposes the press and release
edge queries, but the state (level) query exists exactly for the seven
actions up, down, left, right, confirm, cancel and menu; minimap,
pause, quit and help are edge-only. -/
theorem snapshot_query_surface (a : LogicalAction) :
    (pressQuery a).isSome = true
  ∧ (releaseQuery a).isSome = true
  ∧ ((stateQuery a).isSome = true ↔
      (a = .up ∨ a = .down ∨ a = .left ∨ a = .right ∨ a = .confirm
        ∨ a = .cancel ∨ a = .menu)) := by
  cases a <;> simp [stateQuery, pressQuery, releaseQuery]

/-! ## C8: the threshold setter performs no range check -/

/-- C8 counterexample.  `SetThresholdJoy(-1)` stores
`(-1) mod 2^16 = 65535` into the `uint16_t` threshold member, which
exceeds `maxAxisMagnitude = 32767`, and `GetThresholdJoy` then returns
the reinterpreted value `-1 < 0`: the claimed invariant
`0 ≤ threshold ≤ max_axis_magnitude` does not survive this call. -/
theorem set_threshold_negative_breaks_invariant :
    (sampleEngine.SetThresholdJoy (-1)).joystick.threshold = 65535
  ∧ ¬ ((sampleEngine.SetThresholdJoy (-1)).joystick.threshold ≤ maxAxisMagnitude)
  ∧ (sampleEngine.SetThresholdJoy (-1)).GetThresholdJoy = -1
  ∧ ¬ (0 ≤ (sampleEngine.SetThresholdJoy (-1)).GetThresholdJoy) := by
  refine ⟨rfl, by decide, rfl, by decide⟩

/-- C8 amended.  `SetThresholdJoy` stores its `int16_t` argument into
the `uint16_t` threshold member by modular reinterpretation with no
range check; the invariant `0 ≤ threshold ≤ maxAxisMagnitude` holds
after the call exactly when the argument itself lies in that range, and
then `GetThresholdJoy` returns the stored value unchanged.  A negative
argument instead stores a value above `maxAxisMagnitude` which reads
back negative. -/
theorem set_threshold_nonneg_invariant (e : InputEngine) (t : Int)
    (h0 : 0 ≤ t) (h1 : t ≤ (maxAxisMagnitude : Int)) :
    ((e.SetThresholdJoy t).joystick.threshold : Int) = t
  ∧ (e.SetThresholdJoy t).joystick.threshold ≤ maxAxisMagnitude
  ∧ (e.SetThresholdJoy t).GetThresholdJoy = t := by
  simp only [maxAxisMagnitude] at h1
  have hlt : t < 65536 := by omega
  have hmod : t % 65536 = t := Int.emod_eq_of_lt h0 hlt
  constructor
  · simp only [InputEngine.SetThresholdJoy, int16ToUInt16, hmod]
    exact Int.toNat_of_nonneg h0
  constructor
  · simp only [InputEngine.SetThresholdJoy, int16ToUInt16, hmod, maxAxisMagnitude]
    omega
  · simp only [InputEngine.SetThresholdJoy, InputEngine.GetThresholdJoy,
      uint16ToInt16, int16ToUInt16, hmod]
    have htn : (t.toNat : Int) = t := Int.toNat_of_nonneg h0
    have : t.toNat < 32768 := by omega
    simp [this, htn]

/-- C8 amended, witness: `SetThresholdJoy 16000` keeps the invariant and
reads back as 16000. -/
theorem set_threshold_nonneg_invariant_witness :
    ((sampleEngine.SetThresholdJoy 16000).joystick.threshold : Int) = 16000
  ∧ (sampleEngine.SetThresholdJoy 16000).joystick.threshold ≤ maxAxisMagnitude
  ∧ (sampleEngine.SetThresholdJoy 16000).GetThresholdJoy = 16000 :=
  set_threshold_nonneg_invariant sampleEngine 16000 (by decide) (by decide)

/-! ## Spec-modelled binding tables and remap conflict resolution

The bodies of `InputEngine::_SetNewKey` and `InputEngine::_SetNewJoyButton`
are in `input.cpp`, which is not among the sources; only their
declarations and doc comments appear in input.h (lines 271-281).  The
definitions in this section are therefore modelled from the
specification (section 4.3). -/

/-- The nine actions holding a slot in `private_input::KeyState`
(Quit and Help are fixed to reserved codes and have no slot). -/
inductive KeyAction
  | up | down | left | right | confirm | cancel | menu | minimap | pause
deriving DecidableEq

/-- A key-binding table: the `KeyState` fields viewed as a mapping from
remappable action to `SDL_Keycode`. -/
def KeyTable : Type := KeyAction → Int

/-- The reserved key codes named by input.h line 55 and the spec:
the Quit code (`SDLK_ESCAPE`), the Help code (`SDLK_F1`) and Confirm's
secondary code (`SDLK_KP_ENTER`). -/
def reservedKeys : List Int := [SDLK_ESCAPE, SDLK_F1, SDLK_KP_ENTER]

/-- Modelled from the spec: the body of `InputEngine::_SetNewKey` is in
the absent `input.cpp`.  Per spec section 4.3, `SetBinding(action,
newCode)` rejects a reserved `newCode` as a no-op; otherwise any other
action currently holding `newCode` is unbound (set to the explicit
unbound sentinel `SDLK_UNKNOWN`) and `newCode` is assigned to
`action`. -/
def setNewKey (tbl : KeyTable) (act : KeyAction) (new_key : Int) : KeyTable :=
  if new_key ∈ reservedKeys then tbl
  else fun b =>
    if b = act then new_key
    else if tbl b = new_key then SDLK_UNKNOWN
    else tbl b

/-- The seven actions holding a button slot in
`private_input::JoystickState` (input.h lines 95-101). -/
inductive JoyAction
  | confirm | cancel | menu | minimap | pause | help | quit
deriving DecidableEq

/-- A joystick-button-binding table: the `JoystickState` button fields
viewed as a mapping from action to `uint8_t` button index. -/
def JoyTable : Type := JoyAction → Nat

/-- Modelled from the spec: the unbound sentinel for the joystick button
table.  The header stores buttons as `uint8_t`, so the sentinel chosen
here is the extreme value 255, outside the button range of real pads;
the spec only requires the sentinel to be an explicit, recognizable
"unbound" value. -/
def JOY_UNBOUND : Nat := 255

/-- Modelled from the spec: the body of `InputEngine::_SetNewJoyButton`
is in the absent `input.cpp`.  Per spec section 4.3, any other action
currently holding `new_button` is unbound before the assignment (no
joystick button is reserved); the `uint8_t` argument is reduced mod
2^8. -/
def setNewJoyButton (tbl : JoyTable) (act : JoyAction) (new_button : Nat) :
    JoyTable := fun b =>
  if b = act then new_button % 256
  else if tbl b = new_button % 256 then JOY_UNBOUND
  else tbl b

/-- A key table is injective over bound entries: no two distinct actions
hold the same code, the unbound sentinel excluded (an unbound action
holds no physical code). -/
def keyInjOnBound (tbl : KeyTable) : Prop :=
  ∀ a b : KeyAction, tbl a ≠ SDLK_UNKNOWN → tbl b ≠ SDLK_UNKNOWN →
    tbl a = tbl b → a = b

/-- A joystick button table is injective over bound entries. -/
def joyInjOnBound (tbl : JoyTable) : Prop :=
  ∀ a b : JoyAction, tbl a ≠ JOY_UNBOUND → tbl b ≠ JOY_UNBOUND →
    tbl a = tbl b → a = b

/-- A concrete key table for witnesses: the arrow keys, Return, `d`,
`m`, `v` and the space bar. -/
def sampleKeyTable : KeyTable := fun a =>
  match a with
  | .up => 1073741906
  | .down => 1073741905
  | .left => 1073741904
  | .right => 1073741903
  | .confirm => SDLK_RETURN
  | .cancel => 100
  | .menu => 109
  | .minimap => 118
  | .pause => 32

/-- A concrete joystick button table for witnesses. -/
def sampleJoyTable : JoyTable := fun a =>
  match a with
  | .confirm => 0
  | .cancel => 1
  | .menu => 2
  | .minimap => 3
  | .pause => 4
  | .help => 5
  | .quit => 6

/-! ## C4: remap eviction and injectivity -/

/-- C4.  Modelled from the spec (the `_SetNewKey` / `_SetNewJoyButton`
bodies are in the absent `input.cpp`).  For a non-reserved new code `K`
held by action `A`, `SetBinding(B, K)` with `B ≠ A` leaves `A` on the
unbound sentinel and `B` on `K` — in the key table, and likewise in the
independent joystick button table — and both `setNewKey` and
`setNewJoyButton` preserve injectivity over bound entries. -/
theorem set_binding_eviction_injective
    (tbl : KeyTable) (A B : KeyAction) (K : Int)
    (hAB : A ≠ B) (hK : K ∉ reservedKeys) (hA : tbl A = K)
    (jt : JoyTable) (JA JB : JoyAction) (JK : Nat)
    (hJAB : JA ≠ JB) (hJK : JK < 256) (hJA : jt JA = JK) :
    (setNewKey tbl B K A = SDLK_UNKNOWN ∧ setNewKey tbl B K B = K)
  ∧ (setNewJoyButton jt JB JK JA = JOY_UNBOUND
      ∧ setNewJoyButton jt JB JK JB = JK)
  ∧ (∀ (t : KeyTable) (a : KeyAction) (nk : Int),
      keyInjOnBound t → keyInjOnBound (setNewKey t a nk))
  ∧ (∀ (t : JoyTable) (a : JoyAction) (nb : Nat),
      joyInjOnBound t → joyInjOnBound (setNewJoyButton t a nb)) := by
  refine ⟨⟨?_, ?_⟩, ⟨?_, ?_⟩, ?_, ?_⟩
  · simp [setNewKey, hK, hAB, hA]
  · simp [setNewKey, hK]
  · simp [setNewJoyButton, hJAB, hJA, Nat.mod_eq_of_lt hJK]
  · simp [setNewJoyButton, Nat.mod_eq_of_lt hJK]
  · intro t a nk hinj x y hx hy hxy
    by_cases hres : nk ∈ reservedKeys
    · rw [setNewKey, if_pos hres] at hx hy hxy
      exact hinj x y hx hy hxy
    · rw [setNewKey, if_neg hres] at hx hy hxy
      split_ifs at hx hy hxy <;>
        first
          | exact hinj x y hx hy hxy
          | simp_all
  · intro t a nb hinj x y hx hy hxy
    simp only [setNewJoyButton] at hx hy hxy
    split_ifs at hx hy hxy <;>
      first
        | exact hinj x y hx hy hxy
        | simp_all

/-- C4 witness: rebinding Confirm's key (`SDLK_RETURN`, held by the
confirm action) onto the cancel action unbinds confirm and binds
cancel, and likewise joystick button 0 moves from confirm to cancel. -/
theorem set_binding_eviction_injective_witness :
    (setNewKey sampleKeyTable KeyAction.cancel SDLK_RETURN KeyAction.confirm
        = SDLK_UNKNOWN
      ∧ setNewKey sampleKeyTable KeyAction.cancel SDLK_RETURN KeyAction.cancel
        = SDLK_RETURN)
  ∧ (setNewJoyButton sampleJoyTable JoyAction.cancel 0 JoyAction.confirm
        = JOY_UNBOUND
      ∧ setNewJoyButton sampleJoyTable JoyAction.cancel 0 JoyAction.cancel = 0)
  ∧ (∀ (t : KeyTable) (a : KeyAction) (nk : Int),
      keyInjOnBound t → keyInjOnBound (setNewKey t a nk))
  ∧ (∀ (t : JoyTable) (a : JoyAction) (nb : Nat),
      joyInjOnBound t → joyInjOnBound (setNewJoyButton t a nb)) :=
  set_binding_eviction_injective sampleKeyTable KeyAction.confirm
    KeyAction.cancel SDLK_RETURN (by decide) (by decide) (by decide)
    sampleJoyTable JoyAction.confirm JoyAction.cancel 0 (by decide)
    (by decide) (by decide)

/-! ## C5: reserved codes are rejected as no-ops -/

/-- C5.  Modelled from the spec (the `_SetNewKey` body is in the absent
`input.cpp`).  Calling a key re-mapping operation with a reserved code
— the Quit code `SDLK_ESCAPE`, the Help code `SDLK_F1` or Confirm's
secondary code `SDLK_KP_ENTER` — changes no binding in the table: every
action's binding, the target's included, reads back unchanged. -/
theorem reserved_code_remap_rejected
    (tbl : KeyTable) (act : KeyAction) (k : Int) (hk : k ∈ reservedKeys) :
    ∀ b : KeyAction, setNewKey tbl act k b = tbl b := by
  intro b
  simp [setNewKey, hk]

/-- C5 witness: `SetConfirmKey(SDLK_ESCAPE)` — the reserved Quit code —
is rejected, and a subsequent read of the confirm binding returns its
prior value `SDLK_RETURN`. -/
theorem reserved_code_remap_rejected_witness :
    setNewKey sampleKeyTable KeyAction.confirm SDLK_ESCAPE KeyAction.confirm
      = sampleKeyTable KeyAction.confirm :=
  reserved_code_remap_rejected sampleKeyTable KeyAction.confirm SDLK_ESCAPE
    (by decide) KeyAction.confirm

/-! ## Spec-modelled input state machine

The bodies of `InputEngine::EventHandler`, `_KeyEventHandler` and
`_JoystickEventHandler` (declared at input.h lines 261-269 and 341-350)
and of `RestoreDefaultKeys` / `RestoreDefaultJoyButtons` (lines 294-302)
are in the absent `input.cpp`; the machine in this section is modelled
from the specification (sections 4.1, 4.2 and 4.3). -/

/-- The tri-state digitization of an analog axis. -/
inductive TriState
  | Negative | Neutral | Positive
deriving DecidableEq

/-- The raw platform events relevant to the claims: keyboard key down
(with the Ctrl modifier flag), keyboard key up, and joystick axis
motion (axis index and signed magnitude). -/
inductive RawEvent
  | keyDown (sym : Int) (ctrl : Bool)
  | keyUp (sym : Int)
  | axisMotion (axis : Int) (value : Int)
deriving DecidableEq

/-- Modelled from the spec: the per-frame machine state `EventHandler`
mutates.  It carries the key-binding table, the joystick button table,
the axis bindings (axis indices and shared threshold, as in
`JoystickState`), the previous TriState of each tracked axis (spec
section 4.2: "Per tracked axis, holds the previous TriState"), the
per-action `state`/`press`/`release` snapshot (spec section 3:
"InputSnapshot: for every LogicalAction, three booleans"), and the
last-axis-moved latch. -/
structure SpecEngine where
  key : KeyTable
  joy : JoyTable
  x_axis : Int
  y_axis : Int
  threshold : Nat
  xTri : TriState
  yTri : TriState
  state : KeyAction → Bool
  press : KeyAction → Bool
  release : KeyAction → Bool
  lastAxis : Int

/-- Pointwise update of a per-action flag table. -/
def updFlag (f : KeyAction → Bool) (a : KeyAction) (v : Bool) :
    KeyAction → Bool :=
  fun b => if b = a then v else f b

/-- Modelled from the spec: record a press edge — `press := true`,
`state := true` for the action (spec section 4.1). -/
def pressAction (e : SpecEngine) (a : KeyAction) : SpecEngine :=
  { e with press := updFlag e.press a true, state := updFlag e.state a true }

/-- Modelled from the spec: record a release edge — `release := true`,
`state := false` for the action (spec section 4.1). -/
def releaseAction (e : SpecEngine) (a : KeyAction) : SpecEngine :=
  { e with release := updFlag e.release a true
         , state := updFlag e.state a false }

/-- Modelled from the spec: resolve a physical key code against the
key-binding table, first match in the `KeyState` field order. -/
def resolveKey (tbl : KeyTable) (sym : Int) : Option KeyAction :=
  if tbl .up = sym then some .up
  else if tbl .down = sym then some .down
  else if tbl .left = sym then some .left
  else if tbl .right = sym then some .right
  else if tbl .confirm = sym then some .confirm
  else if tbl .cancel = sym then some .cancel
  else if tbl .menu = sym then some .menu
  else if tbl .minimap = sym then some .minimap
  else if tbl .pause = sym then some .pause
  else none

/-- Modelled from the spec (section 4.2): the tri-state digitization of
a signed magnitude against a threshold, in the spec's rule order —
`magnitude ≤ -threshold` gives Negative, else `magnitude ≥ +threshold`
gives Positive, otherwise Neutral. -/
def digitize (m : Int) (t : Nat) : TriState :=
  if m ≤ -(t : Int) then .Negative
  else if (t : Int) ≤ m then .Positive
  else .Neutral

/-- Modelled from the spec (section 4.2): the edges synthesized by a
TriState transition on one axis, whose Negative and Positive directions
map to the actions `negA` and `posA`.  A direct Negative-Positive swing
synthesizes the release of the old direction followed by the press of
the new one. -/
def axisTransition (e : SpecEngine) (prev next : TriState)
    (negA posA : KeyAction) : SpecEngine :=
  match prev, next with
  | .Neutral, .Positive => pressAction e posA
  | .Neutral, .Negative => pressAction e negA
  | .Positive, .Neutral => releaseAction e posA
  | .Negative, .Neutral => releaseAction e negA
  | .Negative, .Positive => pressAction (releaseAction e negA) posA
  | .Positive, .Negative => pressAction (releaseAction e posA) negA
  | .Negative, .Negative => e
  | .Neutral, .Neutral => e
  | .Positive, .Positive => e

/-- Modelled from the spec: the axis-motion part of
`_JoystickEventHandler`.  The x axis maps Negative/Positive to
left/right, the y axis to up/down; the stored TriState is replaced and
the last-axis-moved latch records the axis whenever the TriState
changed (spec section 4.2: "records which physical axis last produced a
transition"). -/
def handleAxis (e : SpecEngine) (axis : Int) (value : Int) : SpecEngine :=
  if axis = e.x_axis then
    let next := digitize value e.threshold
    let e' := axisTransition e e.xTri next .left .right
    if next = e.xTri then { e' with xTri := next }
    else { e' with xTri := next, lastAxis := axis }
  else if axis = e.y_axis then
    let next := digitize value e.threshold
    let e' := axisTransition e e.yTri next .up .down
    if next = e.yTri then { e' with yTri := next }
    else { e' with yTri := next, lastAxis := axis }
  else e

/-- Modelled from the spec (section 4.1): dispatch of one raw event.
A key-down matching a reserved modifier combination (Ctrl+F, Ctrl+Q,
Ctrl+S) goes to the meta-command dispatcher and does not update the
logical state machine; otherwise a bound key-down fires a press edge
when the action's `state` was false and is a no-op when it was already
true (key-repeat); a bound key-up fires a release edge when `state` was
true; unmatched codes leave the logical table alone.  Axis motion is
routed to the digitizer. -/
def handleEvent (e : SpecEngine) (ev : RawEvent) : SpecEngine :=
  match ev with
  | .keyDown sym ctrl =>
    if ctrl && (sym = SDLK_f || sym = SDLK_q || sym = SDLK_s) then e
    else
      match resolveKey e.key sym with
      | some a => if e.state a then e else pressAction e a
      | none => e
  | .keyUp sym =>
    match resolveKey e.key sym with
    | some a => if e.state a then releaseAction e a else e
    | none => e
  | .axisMotion axis value => handleAxis e axis value

/-- Modelled from the spec (section 4.1): on entry `EventHandler`
clears every press and release flag while preserving the state flags. -/
def clearEdges (e : SpecEngine) : SpecEngine :=
  { e with press := fun _ => false, release := fun _ => false }

/-- Modelled from the spec: one `EventHandler` invocation — clear the
edge flags, then drain the pending raw events in arrival order. -/
def specEventHandler (e : SpecEngine) (events : List RawEvent) : SpecEngine :=
  events.foldl handleEvent (clearEdges e)

/-! ## Spec-modelled configuration reload (C6) -/

/-- Modelled from the spec (section 6): reading the key section of the
configuration source, one code per remappable action; the parse fails
(returns `none`) when any entry is missing. -/
def parseKeySettings (src : List (KeyAction × Int)) : Option KeyTable :=
  match src.lookup .up, src.lookup .down, src.lookup .left,
      src.lookup .right, src.lookup .confirm, src.lookup .cancel,
      src.lookup .menu, src.lookup .minimap, src.lookup .pause with
  | some u, some d, some l, some r, some c, some ca, some m, some mm,
      some p =>
    some (fun a =>
      match a with
      | .up => u | .down => d | .left => l | .right => r | .confirm => c
      | .cancel => ca | .menu => m | .minimap => mm | .pause => p)
  | _, _, _, _, _, _, _, _, _ => none

/-- Modelled from the spec (section 6): reading the joystick button
section of the configuration source. -/
def parseJoySettings (src : List (JoyAction × Nat)) : Option JoyTable :=
  match src.lookup .confirm, src.lookup .cancel, src.lookup .menu,
      src.lookup .minimap, src.lookup .pause, src.lookup .help,
      src.lookup .quit with
  | some c, some ca, some m, some mm, some p, some h, some q =>
    some (fun a =>
      match a with
      | .confirm => c | .cancel => ca | .menu => m | .minimap => mm
      | .pause => p | .help => h | .quit => q)
  | _, _, _, _, _, _, _ => none

/-- Modelled from the spec: `InputEngine::RestoreDefaultKeys` (declared
at input.h lines 294-297, body in the absent `input.cpp`) re-reads the
configuration source; on parse failure it returns `false` and leaves
every binding untouched, on success it replaces the whole key table and
returns `true`. -/
def RestoreDefaultKeys (e : SpecEngine) (src : List (KeyAction × Int)) :
    Bool × SpecEngine :=
  match parseKeySettings src with
  | none => (false, e)
  | some t => (true, { e with key := t })

/-- Modelled from the spec: `InputEngine::RestoreDefaultJoyButtons`
(declared at input.h lines 299-302, body in the absent `input.cpp`). -/
def RestoreDefaultJoyButtons (e : SpecEngine)
    (src : List (JoyAction × Nat)) : Bool × SpecEngine :=
  match parseJoySettings src with
  | none => (false, e)
  | some t => (true, { e with joy := t })

/-- C6.  Modelled from the spec (the bodies are in the absent
`input.cpp`).  `RestoreDefaultKeys` is atomic: for every engine and
configuration source, either the parse fails and the call returns
`false` with the engine — every binding included — exactly as it was,
or the parse succeeds and the call returns `true` with the key table
fully replaced by the parsed one and nothing else changed; likewise
`RestoreDefaultJoyButtons` for the joystick button table. -/
theorem restore_defaults_atomic (e : SpecEngine)
    (ksrc : List (KeyAction × Int)) (jsrc : List (JoyAction × Nat)) :
    ((parseKeySettings ksrc = none ∧ RestoreDefaultKeys e ksrc = (false, e))
      ∨ (∃ t, parseKeySettings ksrc = some t
          ∧ RestoreDefaultKeys e ksrc = (true, { e with key := t })))
  ∧ ((parseJoySettings jsrc = none
        ∧ RestoreDefaultJoyButtons e jsrc = (false, e))
      ∨ (∃ t, parseJoySettings jsrc = some t
          ∧ RestoreDefaultJoyButtons e jsrc = (true, { e with joy := t }))) := by
  constructor
  · cases hk : parseKeySettings ksrc with
    | none => exact Or.inl ⟨rfl, by simp [RestoreDefaultKeys, hk]⟩
    | some t => exact Or.inr ⟨t, rfl, by simp [RestoreDefaultKeys, hk]⟩
  · cases hj : parseJoySettings jsrc with
    | none => exact Or.inl ⟨rfl, by simp [RestoreDefaultJoyButtons, hj]⟩
    | some t => exact Or.inr ⟨t, rfl, by simp [RestoreDefaultJoyButtons, hj]⟩

/-- A concrete spec-machine state for witnesses and the sampled
sequences: threshold 16000, x axis 0, y axis 1, everything idle. -/
def sampleSpecEngine : SpecEngine where
  key := sampleKeyTable
  joy := sampleJoyTable
  x_axis := 0
  y_axis := 1
  threshold := 16000
  xTri := .Neutral
  yTri := .Neutral
  state := fun _ => false
  press := fun _ => false
  release := fun _ => false
  lastAxis := -1

/-! ## C2: the axis digitizer mapping and the four-poll sample run -/

/-- Poll 1 of the sampled axis sequence: raw value 0 on the y axis. -/
def axisPoll1 : SpecEngine :=
  specEventHandler sampleSpecEngine [RawEvent.axisMotion 1 0]

/-- Poll 2: raw value 20000. -/
def axisPoll2 : SpecEngine :=
  specEventHandler axisPoll1 [RawEvent.axisMotion 1 20000]

/-- Poll 3: raw value 20000 again. -/
def axisPoll3 : SpecEngine :=
  specEventHandler axisPoll2 [RawEvent.axisMotion 1 20000]

/-- Poll 4: raw value 0 again. -/
def axisPoll4 : SpecEngine :=
  specEventHandler axisPoll3 [RawEvent.axisMotion 1 0]

/-- C2.  Modelled from the spec (the `_JoystickEventHandler` body is in
the absent `input.cpp`).  The digitizer maps magnitude `m` and
threshold `t` by the spec's ordered rules — `m ≤ -t` gives Negative,
`m ≥ +t` (with `t` positive) gives Positive, strictly between gives
Neutral — and with threshold 16000 the y-axis sample sequence
`[0, 20000, 20000, 0]` across four polls produces Neutral with no
flags, Positive with press and state on the mapped (down) action,
Positive with state only, then Neutral with release. -/
theorem axis_digitizer_map_and_sample_run :
    (∀ (m : Int) (t : Nat), m ≤ -(t : Int) → digitize m t = .Negative)
  ∧ (∀ (m : Int) (t : Nat), 0 < t → (t : Int) ≤ m → digitize m t = .Positive)
  ∧ (∀ (m : Int) (t : Nat), -(t : Int) < m → m < (t : Int) →
      digitize m t = .Neutral)
  ∧ (axisPoll1.yTri = .Neutral
      ∧ axisPoll1.press .down = false ∧ axisPoll1.state .down = false
      ∧ axisPoll1.release .down = false
      ∧ axisPoll1.press .up = false ∧ axisPoll1.state .up = false
      ∧ axisPoll1.release .up = false)
  ∧ (axisPoll2.yTri = .Positive
      ∧ axisPoll2.press .down = true ∧ axisPoll2.state .down = true
      ∧ axisPoll2.release .down = false
      ∧ axisPoll2.press .up = false ∧ axisPoll2.state .up = false)
  ∧ (axisPoll3.yTri = .Positive
      ∧ axisPoll3.press .down = false ∧ axisPoll3.state .down = true
      ∧ axisPoll3.release .down = false)
  ∧ (axisPoll4.yTri = .Neutral
      ∧ axisPoll4.press .down = false ∧ axisPoll4.state .down = false
      ∧ axisPoll4.release .down = true) := by
  refine ⟨?_, ?_, ?_, by decide, by decide, by decide, by decide⟩
  · intro m t h
    unfold digitize
    rw [if_pos h]
  · intro m t ht h
    unfold digitize
    rw [if_neg (by omega), if_pos h]
  · intro m t h1 h2
    unfold digitize
    rw [if_neg (by omega), if_neg (by omega)]

/-- C2 witness: the three mapping rules evaluated at threshold 16000
and magnitudes -20000, 20000 and 0. -/
theorem axis_digitizer_map_witness :
    digitize (-20000) 16000 = .Negative
  ∧ digitize 20000 16000 = .Positive
  ∧ digitize 0 16000 = .Neutral :=
  ⟨axis_digitizer_map_and_sample_run.1 (-20000) 16000 (by decide),
   axis_digitizer_map_and_sample_run.2.1 20000 16000 (by decide) (by decide),
   axis_digitizer_map_and_sample_run.2.2.1 0 16000 (by decide) (by decide)⟩

/-! ## C3: a direct Negative-Positive swing emits both edges -/

/-- C3.  Modelled from the spec (the `_JoystickEventHandler` body is in
the absent `input.cpp`).  When the y axis swings from one extreme past
both thresholds to the other between two consecutive polls — previous
TriState Positive with a new magnitude at or below `-threshold`, or
previous TriState Negative with a new magnitude at or above
`+threshold` — the same single `EventHandler` call emits both the
release of the old direction's action and the press of the new
direction's action, and the held state moves from the old action to the
new one, so the state never flips without both edges observable. -/
theorem axis_double_edge_swing (e : SpecEngine) (v w : Int)
    (hax : e.x_axis ≠ e.y_axis) :
    (e.yTri = .Positive → v ≤ -((e.threshold : Int)) →
      ((specEventHandler e [RawEvent.axisMotion e.y_axis v]).release .down = true
        ∧ (specEventHandler e [RawEvent.axisMotion e.y_axis v]).press .up = true
        ∧ (specEventHandler e [RawEvent.axisMotion e.y_axis v]).state .up = true
        ∧ (specEventHandler e [RawEvent.axisMotion e.y_axis v]).state .down = false
        ∧ (specEventHandler e [RawEvent.axisMotion e.y_axis v]).yTri = .Negative))
  ∧ (e.yTri = .Negative → 0 < e.threshold → (e.threshold : Int) ≤ w →
      ((specEventHandler e [RawEvent.axisMotion e.y_axis w]).release .up = true
        ∧ (specEventHandler e [RawEvent.axisMotion e.y_axis w]).press .down = true
        ∧ (specEventHandler e [RawEvent.axisMotion e.y_axis w]).state .down = true
        ∧ (specEventHandler e [RawEvent.axisMotion e.y_axis w]).state .up = false
        ∧ (specEventHandler e [RawEvent.axisMotion e.y_axis w]).yTri = .Positive)) := by
  have hxne : ¬ (e.y_axis = e.x_axis) := fun h => hax h.symm
  constructor
  · intro hprev hv
    have hdig : digitize v e.threshold = TriState.Negative := by
      unfold digitize
      rw [if_pos hv]
    simp [specEventHandler, handleEvent, handleAxis, clearEdges, hxne, hdig,
      hprev, axisTransition, pressAction, releaseAction, updFlag]
  · intro hprev ht hw
    have hdig : digitize w e.threshold = TriState.Positive := by
      unfold digitize
      rw [if_neg (by omega), if_pos hw]
    simp [specEventHandler, handleEvent, handleAxis, clearEdges, hxne, hdig,
      hprev, axisTransition, pressAction, releaseAction, updFlag]

/-- C3 witness: both swing directions evaluated on the concrete
engines with threshold 16000 and magnitudes -20000 / 20000. -/
theorem axis_double_edge_swing_witness :
    ((specEventHandler { sampleSpecEngine with yTri := .Positive }
        [RawEvent.axisMotion 1 (-20000)]).release .down = true
      ∧ (specEventHandler { sampleSpecEngine with yTri := .Positive }
          [RawEvent.axisMotion 1 (-20000)]).press .up = true
      ∧ (specEventHandler { sampleSpecEngine with yTri := .Positive }
          [RawEvent.axisMotion 1 (-20000)]).state .up = true
      ∧ (specEventHandler { sampleSpecEngine with yTri := .Positive }
          [RawEvent.axisMotion 1 (-20000)]).state .down = false
      ∧ (specEventHandler { sampleSpecEngine with yTri := .Positive }
          [RawEvent.axisMotion 1 (-20000)]).yTri = .Negative)
  ∧ ((specEventHandler { sampleSpecEngine with yTri := .Negative }
        [RawEvent.axisMotion 1 20000]).release .up = true
      ∧ (specEventHandler { sampleSpecEngine with yTri := .Negative }
          [RawEvent.axisMotion 1 20000]).press .down = true
      ∧ (specEventHandler { sampleSpecEngine with yTri := .Negative }
          [RawEvent.axisMotion 1 20000]).state .down = true
      ∧ (specEventHandler { sampleSpecEngine with yTri := .Negative }
          [RawEvent.axisMotion 1 20000]).state .up = false
      ∧ (specEventHandler { sampleSpecEngine with yTri := .Negative }
          [RawEvent.axisMotion 1 20000]).yTri = .Positive) :=
  ⟨(axis_double_edge_swing { sampleSpecEngine with yTri := .Positive }
      (-20000) 20000 (by decide)).1 (by decide) (by decide),
   (axis_double_edge_swing { sampleSpecEngine with yTri := .Negative }
      (-20000) 20000 (by decide)).2 (by decide) (by decide) (by decide)⟩

/-! ## C1: a held key fires press once, keeps state, never releases -/

/-- The engine after the call that first sees the key going down,
followed by the first `n` of the subsequent calls, each of which either
sees no event or sees the key-repeat `keyDown` SDL generates while the
key stays held. -/
def holdCalls (e : SpecEngine) (k : Int) (qs : List (List RawEvent))
    (n : Nat) : SpecEngine :=
  (qs.take n).foldl specEventHandler
    (specEventHandler e [RawEvent.keyDown k false])

/-- First call of a hold: a bound, previously-unheld key going down
fires the press edge, raises the state, leaves release clear and keeps
the binding table. -/
lemma specEventHandler_keyDown_fresh (e : SpecEngine) (a : KeyAction)
    (k : Int) (hres : resolveKey e.key k = some a)
    (hst : e.state a = false) :
    (specEventHandler e [RawEvent.keyDown k false]).press a = true
  ∧ (specEventHandler e [RawEvent.keyDown k false]).state a = true
  ∧ (specEventHandler e [RawEvent.keyDown k false]).release a = false
  ∧ (specEventHandler e [RawEvent.keyDown k false]).key = e.key := by
  simp [specEventHandler, handleEvent, hres, hst, pressAction, updFlag,
    clearEdges]

/-- Later calls of a hold: while the action's state is already true, a
call seeing the key-repeat `keyDown` — or no event at all — keeps the
state, leaves press and release clear and keeps the binding table. -/
lemma specEventHandler_keyDown_held (e : SpecEngine) (a : KeyAction)
    (k : Int) (hres : resolveKey e.key k = some a)
    (hst : e.state a = true) (q : List RawEvent)
    (hq : q = [] ∨ q = [RawEvent.keyDown k false]) :
    (specEventHandler e q).press a = false
  ∧ (specEventHandler e q).state a = true
  ∧ (specEventHandler e q).release a = false
  ∧ (specEventHandler e q).key = e.key := by
  rcases hq with hq | hq <;> subst hq <;>
    simp [specEventHandler, handleEvent, hres, hst, clearEdges]

/-- Invariant of the later calls of a hold, propagated down a list of
per-call event queues. -/
lemma hold_foldl_invariant (a : KeyAction) (k : Int)
    (qs : List (List RawEvent))
    (hqs : ∀ q ∈ qs, q = [] ∨ q = [RawEvent.keyDown k false]) :
    ∀ e : SpecEngine, resolveKey e.key k = some a → e.state a = true →
      e.release a = false →
      (qs.foldl specEventHandler e).state a = true
    ∧ (qs.foldl specEventHandler e).release a = false
    ∧ (qs.foldl specEventHandler e).key = e.key
    ∧ (qs = [] → (qs.foldl specEventHandler e).press a = e.press a)
    ∧ (qs ≠ [] → (qs.foldl specEventHandler e).press a = false) := by
  induction qs with
  | nil =>
    intro e hres hst hrel
    exact ⟨hst, hrel, rfl, fun _ => rfl, fun h => absurd rfl h⟩
  | cons q rest ih =>
    intro e hres hst hrel
    have hq : q = [] ∨ q = [RawEvent.keyDown k false] :=
      hqs q (List.mem_cons_self q rest)
    have hstep := specEventHandler_keyDown_held e a k hres hst q hq
    have hrest : ∀ q' ∈ rest, q' = [] ∨ q' = [RawEvent.keyDown k false] :=
      fun q' hq' => hqs q' (List.mem_cons_of_mem q hq')
    have hres2 : resolveKey (specEventHandler e q).key k = some a := by
      rw [hstep.2.2.2]; exact hres
    have ihh := ih hrest (specEventHandler e q) hres2 hstep.2.1 hstep.2.2.1
    simp only [List.foldl_cons]
    refine ⟨ihh.1, ihh.2.1, by rw [ihh.2.2.1, hstep.2.2.2], ?_, ?_⟩
    · intro h
      exact absurd h (List.cons_ne_nil q rest)
    · intro _
      cases hrc : rest with
      | nil =>
        subst hrc
        simpa using hstep.1
      | cons r rs =>
        subst hrc
        exact ihh.2.2.2.2 (List.cons_ne_nil r rs)

/-- C1.  Modelled from the spec (the `EventHandler` and
`_KeyEventHandler` bodies are in the absent `input.cpp`).  For a key
`k` bound to action `a` and not held before: the first `EventHandler`
call that sees the key going down fires `press`, raises `state` and
leaves `release` clear; across every later call — whether the call sees
an SDL key-repeat `keyDown` for `k` or no event at all — `state` stays
true and `release` stays false, and every call after the first leaves
`press` false: key-repeats while `state` is already true are no-ops and
never re-fire `press`. -/
theorem key_hold_press_fires_once (e : SpecEngine) (a : KeyAction)
    (k : Int) (hres : resolveKey e.key k = some a)
    (hst : e.state a = false) (qs : List (List RawEvent))
    (hqs : ∀ q ∈ qs, q = [] ∨ q = [RawEvent.keyDown k false]) :
    ((holdCalls e k qs 0).press a = true
      ∧ (holdCalls e k qs 0).state a = true
      ∧ (holdCalls e k qs 0).release a = false)
  ∧ (∀ n : Nat, (holdCalls e k qs n).state a = true
      ∧ (holdCalls e k qs n).release a = false)
  ∧ (∀ n : Nat, 1 ≤ n → n ≤ qs.length →
      (holdCalls e k qs n).press a = false) := by
  have hfirst := specEventHandler_keyDown_fresh e a k hres hst
  have hres1 :
      resolveKey (specEventHandler e [RawEvent.keyDown k false]).key k
        = some a := by
    rw [hfirst.2.2.2]; exact hres
  have hinv : ∀ n : Nat,
      ((qs.take n).foldl specEventHandler
          (specEventHandler e [RawEvent.keyDown k false])).state a = true
    ∧ ((qs.take n).foldl specEventHandler
          (specEventHandler e [RawEvent.keyDown k false])).release a = false
    ∧ (qs.take n ≠ [] →
        ((qs.take n).foldl specEventHandler
            (specEventHandler e [RawEvent.keyDown k false])).press a
          = false) := by
    intro n
    have htake : ∀ q ∈ qs.take n, q = [] ∨ q = [RawEvent.keyDown k false] :=
      fun q hq => hqs q (List.mem_of_mem_take hq)
    have h := hold_foldl_invariant a k (qs.take n) htake
      (specEventHandler e [RawEvent.keyDown k false]) hres1 hfirst.2.1
      hfirst.2.2.1
    exact ⟨h.1, h.2.1, h.2.2.2.2⟩
  refine ⟨?_, ?_, ?_⟩
  · exact ⟨by simpa [holdCalls] using hfirst.1,
      by simpa [holdCalls] using hfirst.2.1,
      by simpa [holdCalls] using hfirst.2.2.1⟩
  · intro n
    exact ⟨(hinv n).1, (hinv n).2.1⟩
  · intro n h1 h2
    have hne : qs.take n ≠ [] := by
      have hlen : (qs.take n).length = min n qs.length := List.length_take n qs
      have hpos : 0 < (qs.take n).length := by omega
      exact List.ne_nil_of_length_pos hpos
    exact (hinv n).2.2 hne

/-- The per-call event queues of the concrete three-call hold used as
the C1 witness: the first later call sees a key-repeat, the second sees
no event. -/
def sampleHoldQueues : List (List RawEvent) :=
  [[RawEvent.keyDown SDLK_RETURN false], []]

/-- C1 witness: three consecutive calls with the Return key (bound to
confirm) held on the concrete engine. -/
theorem key_hold_press_fires_once_witness :
    ((holdCalls sampleSpecEngine SDLK_RETURN sampleHoldQueues 0).press
        KeyAction.confirm = true
      ∧ (holdCalls sampleSpecEngine SDLK_RETURN sampleHoldQueues 0).state
          KeyAction.confirm = true
      ∧ (holdCalls sampleSpecEngine SDLK_RETURN sampleHoldQueues 0).release
          KeyAction.confirm = false)
  ∧ (∀ n : Nat,
      (holdCalls sampleSpecEngine SDLK_RETURN sampleHoldQueues n).state
          KeyAction.confirm = true
      ∧ (holdCalls sampleSpecEngine SDLK_RETURN sampleHoldQueues n).release
          KeyAction.confirm = false)
  ∧ (∀ n : Nat, 1 ≤ n → n ≤ sampleHoldQueues.length →
      (holdCalls sampleSpecEngine SDLK_RETURN sampleHoldQueues n).press
          KeyAction.confirm = false) :=
  key_hold_press_fires_once sampleSpecEngine KeyAction.confirm SDLK_RETURN
    (by decide) (by decide) sampleHoldQueues (by decide)

/-! ## C9: direction level queries are keyboard-or-hat disjunctions -/

/-- C9.  Each of the four public direction level queries (input.h lines
356-370) is the disjunction of the keyboard/axis-driven state flag with
the separate joystick hat state flag, and the hat flag alone suffices to
make the direction read as held. -/
theorem direction_state_hat_disjunction (e : InputEngine) :
    (e.UpState = true ↔ (e.up_state = true ∨ e.hat_up_state = true))
  ∧ (e.DownState = true ↔ (e.down_state = true ∨ e.hat_down_state = true))
  ∧ (e.LeftState = true ↔ (e.left_state = true ∨ e.hat_left_state = true))
  ∧ (e.RightState = true ↔ (e.right_state = true ∨ e.hat_right_state = true)) := by
  refine ⟨?_, ?_, ?_, ?_⟩ <;>
    simp [InputEngine.UpState, InputEngine.DownState, InputEngine.LeftState,
      InputEngine.RightState]

/-! ## C10: the last-axis-moved reset sentinel reads back as 255 -/

/-- C10.  `ResetLastAxisMoved` stores the `int8_t` sentinel `-1` into
`_last_axis_moved` (input.h lines 337-339); `GetLastAxisMoved` returns
that member as `uint8_t` (lines 333-335), so after a reset, and before
any further axis transition, the accessor yields `255 = -1 mod 2^8`. -/
theorem reset_last_axis_reads_255 (e : InputEngine) :
    (e.ResetLastAxisMoved).GetLastAxisMoved = 255 := by
  simp [InputEngine.ResetLastAxisMoved, InputEngine.GetLastAxisMoved,
    toInt8, int8ToUInt8]

end vt_input
